import Mathlib

/-!
Shallow embedding of the latent-lego flow components
(latent/flow/encoder.py and latent/flow/decoder.py).

Tensors are embedded as lists of rows of rational numbers; a Keras Dense
layer is an affine map followed by a pointwise activation, its kernel
stored as a list of columns.  External collaborators that the two source
files import (DenseStack, ColwiseMult, the clipped activations, the
probability library) are modelled from the specification, as marked on
each definition.  Python name and attribute resolution, which several
claims turn on, is embedded by small step functions returning Except.
-/

namespace Latent

abbrev QVec := List ℚ

abbrev QMat := List (List ℚ)

/-- Dot product of two rational vectors, used by the Dense layer embedding. -/
def dot (xs ys : QVec) : ℚ := (List.zipWith (fun a b => a * b) xs ys).sum

/-- Embedding of a Keras Dense layer: a number of output units, a kernel
stored as one column per unit, a bias vector, and a pointwise activation
applied after the affine map. -/
structure DenseLayer where
  units : Nat
  kernelCols : List QVec
  bias : QVec
  act : ℚ → ℚ

/-- Apply a Dense layer to one input row. -/
def DenseLayer.applyVec (L : DenseLayer) (x : QVec) : QVec :=
  List.zipWith (fun c b => L.act (dot x c + b)) L.kernelCols L.bias

/-- Apply a Dense layer to a whole batch, row by row. -/
def DenseLayer.applyMat (L : DenseLayer) (X : QMat) : QMat := X.map L.applyVec

/-- Modelled from the spec: the Keras linear activation string denotes the
identity function, present for naming consistency and with no numeric
effect. -/
def linearAct : ℚ → ℚ := fun x => x

/-- Modelled from the spec: one DenseStack block is a linear map, then an
optional normalization, then an activation, then an optional dropout; the
last three act pointwise. -/
structure DenseBlock where
  dense : DenseLayer
  norm : ℚ → ℚ
  blockAct : ℚ → ℚ
  drop : ℚ → ℚ

/-- Apply one DenseStack block to an input row. -/
def DenseBlock.applyVec (blk : DenseBlock) (x : QVec) : QVec :=
  (((blk.dense.applyVec x).map blk.norm).map blk.blockAct).map blk.drop

/-- Modelled from the spec: the external DenseStack is a configurable
sequence of fully connected transformation blocks, one per hidden width. -/
structure DenseStack where
  blocks : List DenseBlock

/-- Apply a DenseStack to one input row, folding over its blocks. -/
def DenseStack.applyVec (s : DenseStack) (x : QVec) : QVec :=
  s.blocks.foldl (fun v blk => blk.applyVec v) x

/-- Apply a DenseStack to a whole batch, row by row. -/
def DenseStack.applyMat (s : DenseStack) (X : QMat) : QMat := X.map s.applyVec

/-- State of an Encoder instance as assigned by Encoder.__init__
(encoder.py lines 21-59): the stored hyperparameter fields and the three
owned sublayers. -/
structure Encoder where
  latent_dim : Nat
  dropout_rate : ℚ
  batchnorm : Bool
  l1 : ℚ
  l2 : ℚ
  activation : String
  hidden_units : List Nat
  initName : String
  dense_stack : DenseStack
  final_layer : DenseLayer
  final_act : ℚ → ℚ

/-- Embedding of Encoder.__init__ (encoder.py lines 21-59): stores the
configuration fields, keeps the externally built DenseStack, builds the
final Dense layer with latent_dim units and no activation, and builds the
final Activation layer from the linear activation string.  The realized
kernel columns and bias of the final layer are taken as arguments, since
their values come from the external initializer. -/
def mkEncoder (latent_dim : Nat) (dropout_rate : ℚ) (batchnorm : Bool)
    (l1 l2 : ℚ) (hidden_units : List Nat) (activation initName : String)
    (stack : DenseStack) (W : List QVec) (b : QVec) : Encoder :=
  { latent_dim := latent_dim
    dropout_rate := dropout_rate
    batchnorm := batchnorm
    l1 := l1
    l2 := l2
    activation := activation
    hidden_units := hidden_units
    initName := initName
    dense_stack := stack
    final_layer := { units := latent_dim, kernelCols := W, bias := b, act := linearAct }
    final_act := linearAct }

/-- Embedding of Encoder.call (encoder.py lines 61-66): dense stack, then
final Dense layer, then final Activation layer applied pointwise. -/
def Encoder.call (e : Encoder) (inputs : QMat) : QMat :=
  let h := e.dense_stack.applyMat inputs
  let h2 := e.final_layer.applyMat h
  h2.map (fun row => row.map e.final_act)

/-- State threading embedding of Encoder.call: the body of call contains
only reads of the instance attributes, so the returned state is the input
state. -/
def Encoder.callS (e : Encoder) (inputs : QMat) : Encoder × QMat :=
  let h := e.dense_stack.applyMat inputs
  let h2 := e.final_layer.applyMat h
  (e, h2.map (fun row => row.map e.final_act))

/-- Python errors that the embedded constructors and calls can raise. -/
inductive PyError where
  | nameError (n : String)
  | attributeError (obj attr : String)
deriving DecidableEq, Repr

/-- The three namespaces of the external probability library that
encoder.py aliases at module level. -/
inductive TfpNamespace where
  | layers
  | distributions
  | bijectors
deriving DecidableEq, Repr

/-- Sequential binding of a module level name: a later binding of the same
name shadows an earlier one. -/
def bindName (env : List (String × TfpNamespace)) (n : String) (v : TfpNamespace) :
    List (String × TfpNamespace) := (n, v) :: env

/-- Look a name up in a module level environment. -/
def lookupName (env : List (String × TfpNamespace)) (n : String) : Option TfpNamespace :=
  (env.find? (fun p => p.1 = n)).map (fun p => p.2)

/-- Embedding of encoder.py lines 11-13: tfpl is bound to the layers
namespace, tfd is bound to the distributions namespace and then rebound to
the bijectors namespace by the next line.  No other probability alias is
ever bound; in particular tfb is not. -/
def encoderProbAliases : List (String × TfpNamespace) :=
  bindName (bindName (bindName [] "tfpl" TfpNamespace.layers)
    "tfd" TfpNamespace.distributions) "tfd" TfpNamespace.bijectors

/-- Modelled from the spec: the names exported by the external probability
library namespaces that encoder.py references.  The layers namespace
exposes the distribution lambda layers and the KL regularizer; the
distributions namespace exposes the distribution constructors; the
bijectors namespace exposes only bijector constructors, so it has no
Normal, Independent or TransformedDistribution attribute. -/
def namespaceAttrs : TfpNamespace → List String
  | TfpNamespace.layers => ["MultivariateNormalTriL", "KLDivergenceRegularizer"]
  | TfpNamespace.distributions => ["Normal", "Independent", "TransformedDistribution"]
  | TfpNamespace.bijectors => ["Invert", "MaskedAutoregressiveFlow", "AutoregressiveNetwork"]

/-- Resolve an attribute access alias.attr against the module level
aliases of encoder.py: an unbound alias is a NameError, a bound alias
without the attribute is an AttributeError. -/
def resolveNsAttr (aliasName attr : String) : Except PyError Unit :=
  match lookupName encoderProbAliases aliasName with
  | none => Except.error (PyError.nameError aliasName)
  | some ns =>
      if attr ∈ namespaceAttrs ns then Except.ok ()
      else Except.error (PyError.attributeError aliasName attr)

/-- Instance attributes assigned by Encoder.__init__ (encoder.py lines
34-59), which VariationalEncoder.__init__ runs first through super(). -/
def encoderInitAttrs : List String :=
  ["latent_dim", "dropout_rate", "batchnorm", "l1", "l2", "activation",
   "hidden_units", "initializer", "dense_stack", "final_layer", "final_act"]

/-- Attributes assigned by VariationalEncoder.__init__ before the prior
branch (encoder.py lines 78-89): the inherited attributes, the three new
configuration fields, and the mu_sigma layer. -/
def vEncoderPreAttrs : List String :=
  encoderInitAttrs ++ ["kld_weight", "prior", "iaf_units", "mu_sigma"]

/-- Embedding of encoder.py lines 84-89: building the mu_sigma layer
resolves the MultivariateNormalTriL attribute on tfpl for its params_size. -/
def vInitPre : Except PyError (List String) :=
  match resolveNsAttr "tfpl" "MultivariateNormalTriL" with
  | Except.error e => Except.error e
  | Except.ok _ => Except.ok vEncoderPreAttrs

/-- Embedding of the prior branch of VariationalEncoder.__init__
(encoder.py lines 91-104).  The normal branch first accesses Independent
and then Normal on the name tfd; the iaf branch first accesses
TransformedDistribution on tfd, then Normal on tfd, then Invert on tfb.
Any other prior value takes no branch and assigns nothing. -/
def vInitBranch (prior : String) (attrs : List String) : Except PyError (List String) :=
  if prior = "normal" then
    match resolveNsAttr "tfd" "Independent" with
    | Except.error e => Except.error e
    | Except.ok _ =>
        match resolveNsAttr "tfd" "Normal" with
        | Except.error e => Except.error e
        | Except.ok _ => Except.ok (attrs ++ ["prior_dist"])
  else if prior = "iaf" then
    match resolveNsAttr "tfd" "TransformedDistribution" with
    | Except.error e => Except.error e
    | Except.ok _ =>
        match resolveNsAttr "tfd" "Normal" with
        | Except.error e => Except.error e
        | Except.ok _ =>
            match resolveNsAttr "tfb" "Invert" with
            | Except.error e => Except.error e
            | Except.ok _ => Except.ok (attrs ++ ["prior_dist"])
  else Except.ok attrs

/-- Embedding of encoder.py lines 106-112: the sampling layer construction
resolves MultivariateNormalTriL and KLDivergenceRegularizer on tfpl and
then reads self.prior_dist, which is an AttributeError when the prior
branch assigned no prior_dist attribute. -/
def vInitAfterBranch (attrs : List String) : Except PyError (List String) :=
  match resolveNsAttr "tfpl" "MultivariateNormalTriL" with
  | Except.error e => Except.error e
  | Except.ok _ =>
      match resolveNsAttr "tfpl" "KLDivergenceRegularizer" with
      | Except.error e => Except.error e
      | Except.ok _ =>
          if "prior_dist" ∈ attrs then Except.ok (attrs ++ ["sampling"])
          else Except.error (PyError.attributeError "self" "prior_dist")

/-- Embedding of VariationalEncoder.__init__ (encoder.py lines 71-112) as
a whole: the pre-branch assignments, then the prior branch, then the
sampling layer construction. -/
def variationalEncoderInit (prior : String) : Except PyError (List String) :=
  match vInitPre with
  | Except.error e => Except.error e
  | Except.ok attrs0 =>
      match vInitBranch prior attrs0 with
      | Except.error e => Except.error e
      | Except.ok attrs => vInitAfterBranch attrs

/-- Names bound at module level in decoder.py by its imports (decoder.py
lines 3-10): keras, K, l1_l2, Dense, Activation, DenseStack,
clipped_softplus, clipped_exp and ColwiseMult.  The bare name Model is
never bound. -/
def decoderModuleNames : List String :=
  ["keras", "K", "l1_l2", "Dense", "Activation", "DenseStack",
   "clipped_softplus", "clipped_exp", "ColwiseMult"]

/-- Embedding of the class statement on decoder.py line 13: evaluating the
base class expression Model resolves the name Model against the module
scope, which raises a NameError when the name is unbound. -/
def decoderClassStatement : Except PyError Unit :=
  if "Model" ∈ decoderModuleNames then Except.ok ()
  else Except.error (PyError.nameError "Model")

/-- Resolve a bare name against a scope, raising a NameError when it is
absent. -/
def pyResolve (scope : List String) (n : String) : Except PyError Unit :=
  if n ∈ scope then Except.ok () else Except.error (PyError.nameError n)

/-- Modelled from the spec: the attribute, relevant to decoder.py, that the
external keras base class constructor sets on the instance; it sets no
initializer attribute. -/
def kerasModelBaseAttrs : List String := ["name"]

/-- Names in scope inside the body of Decoder.__init__ from its own
parameter list (decoder.py lines 15-27). -/
def decoderInitLocals : List String :=
  ["self", "x_dim", "name", "dropout_rate", "batchnorm", "l1", "l2",
   "hidden_units", "activation", "kwargs"]

/-- Embedding of Decoder.__init__ (decoder.py lines 15-44) at the level of
name and attribute resolution, parameterized by the enclosing scope.  The
body resolves DenseStack and then the bare name layer_name for the name
argument of the dense stack, later resolves Dense and reads
self.initializer for the final layer, and last resolves Activation; the
attributes it assigns are x_dim, dense_stack, final_layer and final_act on
top of those set by the base constructor. -/
def decoderInitNames (env : List String) : Except PyError (List String) :=
  let scope := decoderInitLocals ++ env
  match pyResolve scope "DenseStack" with
  | Except.error e => Except.error e
  | Except.ok _ =>
      match pyResolve scope "layer_name" with
      | Except.error e => Except.error e
      | Except.ok _ =>
          match pyResolve scope "Dense" with
          | Except.error e => Except.error e
          | Except.ok _ =>
              if "initializer" ∈ kerasModelBaseAttrs ++ ["x_dim", "dense_stack"] then
                match pyResolve scope "Activation" with
                | Except.error e => Except.error e
                | Except.ok _ =>
                    Except.ok (kerasModelBaseAttrs ++
                      ["x_dim", "dense_stack", "final_layer", "final_act"])
              else Except.error (PyError.attributeError "self" "initializer")

/-- State of a decoder family instance: the x_dim field and the optional
layer attributes.  An attribute that no constructor assigned is none,
mirroring its absence on the Python instance. -/
structure CountDecoderState where
  x_dim : Nat
  dense_stack : Option DenseStack
  core_stack : Option (List (QVec → QVec))
  mean_layer : Option DenseLayer
  dispersion_layer : Option DenseLayer
  pi_layer : Option DenseLayer
  norm_layer : Option Unit
  final_layer : Option DenseLayer
  final_act : Option (ℚ → ℚ)

/-- Embedding of the attribute assignments of Decoder.__init__ (decoder.py
lines 28-44), granting the unresolved names so that the body runs to the
end: it assigns x_dim, dense_stack, final_layer and final_act and nothing
else.  CountDecoder.__init__ and the __init__ of every subclass only
forward to it, and none of them ever invokes _final, so core_stack,
mean_layer, dispersion_layer, pi_layer and norm_layer stay unassigned. -/
def decoderInitState (x_dim : Nat) (stack : DenseStack) (W : List QVec) (b : QVec) :
    CountDecoderState :=
  { x_dim := x_dim
    dense_stack := some stack
    core_stack := none
    mean_layer := none
    dispersion_layer := none
    pi_layer := none
    norm_layer := none
    final_layer := some { units := x_dim, kernelCols := W, bias := b, act := linearAct }
    final_act := some linearAct }

/-- Modelled from the spec: the external ColwiseMult layer scales each row
of the mean by the scalar size factor of the corresponding sample. -/
def colwiseMult (mean : QMat) (sf : QVec) : QMat :=
  List.zipWith (fun row s => row.map (fun v => v * s)) mean sf

/-- Embedding of Decoder.call (decoder.py lines 46-51): dense stack, final
layer, final activation, each attribute read failing when unassigned. -/
def decoderCall (d : CountDecoderState) (inputs : QMat) : Except PyError QMat :=
  match d.dense_stack with
  | none => Except.error (PyError.attributeError "self" "dense_stack")
  | some st =>
      let h := st.applyMat inputs
      match d.final_layer with
      | none => Except.error (PyError.attributeError "self" "final_layer")
      | some fl =>
          let h2 := fl.applyMat h
          match d.final_act with
          | none => Except.error (PyError.attributeError "self" "final_act")
          | some fa => Except.ok (h2.map (fun row => row.map fa))

/-- Embedding of CountDecoder.call (decoder.py lines 62-69): split the
input pair, fold the input through self.core_stack, apply the mean layer,
and rescale through the norm layer; each attribute read fails when the
attribute was never assigned. -/
def countDecoderCall (d : CountDecoderState) (h0 : QMat) (sf : QVec) :
    Except PyError QMat :=
  match d.core_stack with
  | none => Except.error (PyError.attributeError "self" "core_stack")
  | some cs =>
      let h := cs.foldl (fun m f => m.map f) h0
      match d.mean_layer with
      | none => Except.error (PyError.attributeError "self" "mean_layer")
      | some ml =>
          let mean := ml.applyMat h
          match d.norm_layer with
          | none => Except.error (PyError.attributeError "self" "norm_layer")
          | some _ => Except.ok (colwiseMult mean sf)

/-- Embedding of NegativeBinomialDecoder.call (decoder.py lines 106-114):
the mean passes through the norm layer, the dispersion does not, and the
result is the ordered list of the rescaled mean and the dispersion. -/
def nbDecoderCall (d : CountDecoderState) (h0 : QMat) (sf : QVec) :
    Except PyError (List QMat) :=
  match d.core_stack with
  | none => Except.error (PyError.attributeError "self" "core_stack")
  | some cs =>
      let h := cs.foldl (fun m f => m.map f) h0
      match d.mean_layer with
      | none => Except.error (PyError.attributeError "self" "mean_layer")
      | some ml =>
          match d.norm_layer with
          | none => Except.error (PyError.attributeError "self" "norm_layer")
          | some _ =>
              let mean := colwiseMult (ml.applyMat h) sf
              match d.dispersion_layer with
              | none => Except.error (PyError.attributeError "self" "dispersion_layer")
              | some dl => Except.ok [mean, dl.applyMat h]

/-- Embedding of ZINBDecoder.call (decoder.py lines 139-148): as the
negative binomial call, followed by the pi layer, returning the ordered
triple of rescaled mean, dispersion and zero inflation probability. -/
def zinbDecoderCall (d : CountDecoderState) (h0 : QMat) (sf : QVec) :
    Except PyError (List QMat) :=
  match d.core_stack with
  | none => Except.error (PyError.attributeError "self" "core_stack")
  | some cs =>
      let h := cs.foldl (fun m f => m.map f) h0
      match d.mean_layer with
      | none => Except.error (PyError.attributeError "self" "mean_layer")
      | some ml =>
          match d.norm_layer with
          | none => Except.error (PyError.attributeError "self" "norm_layer")
          | some _ =>
              let mean := colwiseMult (ml.applyMat h) sf
              match d.dispersion_layer with
              | none => Except.error (PyError.attributeError "self" "dispersion_layer")
              | some dl =>
                  match d.pi_layer with
                  | none => Except.error (PyError.attributeError "self" "pi_layer")
                  | some pl => Except.ok [mean, dl.applyMat h, pl.applyMat h]

/-- Embedding of CountDecoder._final (decoder.py lines 71-77): a linear
mean layer with x_dim units and no activation, and a ColwiseMult norm
layer.  The realized weights are arguments, as they come from the external
initializer. -/
def countFinal (Wm : List QVec) (bm : QVec) (d : CountDecoderState) : CountDecoderState :=
  { d with
    mean_layer := some { units := d.x_dim, kernelCols := Wm, bias := bm, act := linearAct }
    norm_layer := some () }

/-- Embedding of PoissonDecoder._final (decoder.py lines 88-95): the mean
layer carries the clipped_exp activation imported from the activations
module, passed here as the function ce. -/
def poissonFinal (ce : ℚ → ℚ) (Wm : List QVec) (bm : QVec) (d : CountDecoderState) :
    CountDecoderState :=
  { d with
    mean_layer := some { units := d.x_dim, kernelCols := Wm, bias := bm, act := ce }
    norm_layer := some () }

/-- Embedding of NegativeBinomialDecoder._final (decoder.py lines 116-128):
a clipped_exp mean layer, a clipped_softplus dispersion layer and a
ColwiseMult norm layer; ce and csp stand for the imported activation
functions. -/
def nbFinal (ce csp : ℚ → ℚ) (Wm : List QVec) (bm : QVec) (Wd : List QVec) (bd : QVec)
    (d : CountDecoderState) : CountDecoderState :=
  { d with
    mean_layer := some { units := d.x_dim, kernelCols := Wm, bias := bm, act := ce }
    dispersion_layer := some { units := d.x_dim, kernelCols := Wd, bias := bd, act := csp }
    norm_layer := some () }

/-- Embedding of ZINBDecoder._final (decoder.py lines 150-167): as the
negative binomial heads plus a sigmoid pi layer, sg standing for the
sigmoid activation; the layer name given to the pi layer in the source is
the duplicate string dispersion. -/
def zinbFinal (ce csp sg : ℚ → ℚ) (Wm : List QVec) (bm : QVec) (Wd : List QVec) (bd : QVec)
    (Wp : List QVec) (bp : QVec) (d : CountDecoderState) : CountDecoderState :=
  { d with
    mean_layer := some { units := d.x_dim, kernelCols := Wm, bias := bm, act := ce }
    dispersion_layer := some { units := d.x_dim, kernelCols := Wd, bias := bd, act := csp }
    pi_layer := some { units := d.x_dim, kernelCols := Wp, bias := bp, act := sg }
    norm_layer := some () }

/-- Modelled from the spec: the external params_size of the
MultivariateNormalTriL layer, the flattened parameter count of a
multivariate Gaussian with full lower triangular covariance factor. -/
def mvnTriLParamsSize (d : Nat) : Nat := d + d * (d + 1) / 2

/-- Embedding of the mu_sigma layer construction (encoder.py lines 84-89):
a single Dense layer with params_size of latent_dim units and no
activation; the realized weights are arguments. -/
def mkMuSigma (latent_dim : Nat) (W : List QVec) (b : QVec) : DenseLayer :=
  { units := mvnTriLParamsSize latent_dim, kernelCols := W, bias := b, act := linearAct }

/-- Modelled from the spec: clipped exponential activation, the
exponential of the input clipped to a bounded interval so that the output
is bounded and strictly positive. -/
noncomputable def clippedExpR (x : ℝ) : ℝ := Real.exp (max (-10) (min x 10))

/-- Modelled from the spec: the sigmoid activation used by the zero
inflation head. -/
noncomputable def sigmoidR (x : ℝ) : ℝ := 1 / (1 + Real.exp (-x))

/-- A small concrete DenseStack used by the concrete evaluations: one
block with a two unit identity linear map and identity pointwise steps. -/
def sampleStack : DenseStack :=
  { blocks := [{ dense := { units := 2, kernelCols := [[1, 0], [0, 1]], bias := [0, 0],
                            act := linearAct }
                 norm := linearAct, blockAct := linearAct, drop := linearAct }] }

/-- Concrete decoder state as left by the constructor chain, with x_dim 2. -/
def sampleDecoderState : CountDecoderState :=
  decoderInitState 2 sampleStack [[1, 1], [1, -1]] [0, 0]

/-- The concrete decoder state with a core_stack granted (an empty list of
layers), as the call methods expect to find one. -/
def sampleDecoderStateCS : CountDecoderState :=
  { sampleDecoderState with core_stack := some [] }

/-- A concrete latent batch with two samples of two features. -/
def sampleH : QMat := [[1, 2], [3, 4]]

/-- A concrete size factor vector for the two samples. -/
def sampleSF : QVec := [2, 3]

/-- A concrete encoder instance used to exercise the frame property. -/
def encConfigA : Encoder :=
  mkEncoder 1 0 true 0 0 [2] "leaky_relu" "glorot_normal" sampleStack [[1, 1]] [0]

/-- The same encoder with a different stored l1 configuration value but
identical sublayers. -/
def encConfigB : Encoder := { encConfigA with l1 := 5 }

/-- C1: Encoder.call on an input batch of shape B by x_dim returns a batch
of shape B by latent_dim, and the result equals the bare linear final
projection of the DenseStack output, the trailing linear activation having
no numeric effect. -/
theorem encoder_call_shape_and_identity_act
    (B x_dim latent_dim : Nat) (hB : 1 ≤ B) (hx : 1 ≤ x_dim) (hl : 1 ≤ latent_dim)
    (dr l1v l2v : ℚ) (bn : Bool) (hu : List Nat) (actName initNm : String)
    (stack : DenseStack) (W : List QVec) (b : QVec)
    (hW : W.length = latent_dim) (hb : b.length = latent_dim)
    (X : QMat) (hXlen : X.length = B) (hXrow : ∀ r ∈ X, r.length = x_dim) :
    ((mkEncoder latent_dim dr bn l1v l2v hu actName initNm stack W b).call X).length = B
    ∧ (∀ r ∈ (mkEncoder latent_dim dr bn l1v l2v hu actName initNm stack W b).call X,
        r.length = latent_dim)
    ∧ (mkEncoder latent_dim dr bn l1v l2v hu actName initNm stack W b).call X
        = ((mkEncoder latent_dim dr bn l1v l2v hu actName initNm stack W b).dense_stack.applyMat X).map
            (DenseLayer.applyVec
              (mkEncoder latent_dim dr bn l1v l2v hu actName initNm stack W b).final_layer) := by
  have hrow : ∀ row : QVec, row.map linearAct = row := by
    intro row
    induction row with
    | nil => rfl
    | cons a l ih =>
        simp only [List.map_cons, ih]
        rfl
  have hact : ∀ m : QMat, m.map (fun row => row.map linearAct) = m := by
    intro m
    induction m with
    | nil => rfl
    | cons r rs ih =>
        show r.map linearAct :: rs.map (fun row => row.map linearAct) = r :: rs
        rw [hrow r, ih]
  have hcall : (mkEncoder latent_dim dr bn l1v l2v hu actName initNm stack W b).call X
      = (stack.applyMat X).map (DenseLayer.applyVec
          (mkEncoder latent_dim dr bn l1v l2v hu actName initNm stack W b).final_layer) := by
    show (DenseLayer.applyMat _ (stack.applyMat X)).map (fun row => row.map linearAct) = _
    rw [hact]
    rfl
  refine ⟨?_, ?_, hcall⟩
  · rw [hcall]
    simp [DenseStack.applyMat, hXlen]
  · intro r hr
    rw [hcall] at hr
    rw [List.mem_map] at hr
    obtain ⟨y, hy, rfl⟩ := hr
    simp [mkEncoder, DenseLayer.applyVec, List.length_zipWith, hW, hb]

/-- C1 witness: the theorem applied to a concrete encoder with x_dim two,
latent_dim one and batch size one. -/
theorem encoder_call_shape_witness :
    ((mkEncoder 1 0 true 0 0 [2] "leaky_relu" "glorot_normal" sampleStack [[1, 1]] [0]).call
        [[1, 2]]).length = 1
    ∧ (∀ r ∈ (mkEncoder 1 0 true 0 0 [2] "leaky_relu" "glorot_normal" sampleStack
        [[1, 1]] [0]).call [[1, 2]], r.length = 1)
    ∧ (mkEncoder 1 0 true 0 0 [2] "leaky_relu" "glorot_normal" sampleStack [[1, 1]] [0]).call
        [[1, 2]]
        = ((mkEncoder 1 0 true 0 0 [2] "leaky_relu" "glorot_normal" sampleStack
            [[1, 1]] [0]).dense_stack.applyMat [[1, 2]]).map
            (DenseLayer.applyVec (mkEncoder 1 0 true 0 0 [2] "leaky_relu" "glorot_normal"
              sampleStack [[1, 1]] [0]).final_layer) :=
  encoder_call_shape_and_identity_act 1 2 1 (by decide) (by decide) (by decide) 0 0 0 true [2]
    "leaky_relu" "glorot_normal" sampleStack [[1, 1]] [0] (by decide) (by decide) [[1, 2]]
    (by decide) (by decide)

/-- C2: constructing a VariationalEncoder with the normal prior does not
succeed: the module rebinds the name tfd to the bijectors namespace, so
the attribute access for Independent on line 93 raises an AttributeError
at construction, contradicting the claim that construction succeeds and
assigns a standard Gaussian prior. -/
theorem variational_normal_prior_construction_fails :
    lookupName encoderProbAliases "tfd" = some TfpNamespace.bijectors
    ∧ lookupName encoderProbAliases "tfb" = none
    ∧ variationalEncoderInit "normal"
        = Except.error (PyError.attributeError "tfd" "Independent") :=
  ⟨rfl, rfl, rfl⟩

/-- C3 counterexample: with the prior string bogus, construction does not
complete without raising, refuting the claim at this concrete input. -/
theorem invalid_prior_construction_not_ok :
    ¬ ∃ attrs, variationalEncoderInit "bogus" = Except.ok attrs := by
  intro h
  obtain ⟨attrs, h⟩ := h
  rw [show variationalEncoderInit "bogus"
      = Except.error (PyError.attributeError "self" "prior_dist") from rfl] at h
  exact Except.noConfusion h

/-- C3 amended: for every prior string outside normal and iaf, the
constructor itself raises an AttributeError while building the sampling
layer, because it reads the never assigned prior_dist attribute; the
failure is at construction, not deferred to first downstream use. -/
theorem invalid_prior_raises_at_construction (p : String)
    (h1 : p ≠ "normal") (h2 : p ≠ "iaf") :
    variationalEncoderInit p
      = Except.error (PyError.attributeError "self" "prior_dist") := by
  have hbr : vInitBranch p vEncoderPreAttrs = Except.ok vEncoderPreAttrs := by
    unfold vInitBranch
    rw [if_neg h1, if_neg h2]
  have h3 : variationalEncoderInit p =
      (match vInitBranch p vEncoderPreAttrs with
       | Except.error e => Except.error e
       | Except.ok attrs => vInitAfterBranch attrs) := rfl
  rw [h3, hbr]
  rfl

/-- C3 witness: the amended theorem applied at the concrete prior bogus. -/
theorem invalid_prior_raises_witness :
    variationalEncoderInit "bogus"
      = Except.error (PyError.attributeError "self" "prior_dist") :=
  invalid_prior_raises_at_construction "bogus" (by decide) (by decide)

/-- C4: no constructor in the decoder family ever invokes _final, so the
mean layer, the norm layer and the core stack attributes are absent after
construction and CountDecoder.call raises an AttributeError on core_stack
instead of returning the rescaled mean; with the attributes that _final
would have built and a core stack granted, the call dataflow does return
the mean rescaled by the size factor through columnwise multiplication. -/
theorem count_decoder_final_never_invoked :
    sampleDecoderState.mean_layer = none
    ∧ sampleDecoderState.norm_layer = none
    ∧ sampleDecoderState.core_stack = none
    ∧ countDecoderCall sampleDecoderState sampleH sampleSF
        = Except.error (PyError.attributeError "self" "core_stack")
    ∧ ∀ Wm bm, countDecoderCall (countFinal Wm bm sampleDecoderStateCS) sampleH sampleSF
        = Except.ok (colwiseMult
            (DenseLayer.applyMat
              { units := 2, kernelCols := Wm, bias := bm, act := linearAct } sampleH)
            sampleSF) :=
  ⟨rfl, rfl, rfl, rfl, fun Wm bm => rfl⟩

/-- C5: NegativeBinomialDecoder.call on the state its constructors leave
behind raises an AttributeError on core_stack; on a state equipped with
the heads that its _final defines, the call returns the ordered list of
the mean, built with the clipped exponential activation slot and rescaled
by the size factor, followed by the dispersion, built with the clipped
softplus activation slot and not rescaled. -/
theorem nb_decoder_call_structure :
    nbDecoderCall sampleDecoderState sampleH sampleSF
      = Except.error (PyError.attributeError "self" "core_stack")
    ∧ ∀ ce csp Wm bm Wd bd,
        nbDecoderCall (nbFinal ce csp Wm bm Wd bd sampleDecoderStateCS) sampleH sampleSF
          = Except.ok
              [colwiseMult
                (DenseLayer.applyMat
                  { units := 2, kernelCols := Wm, bias := bm, act := ce } sampleH) sampleSF,
               DenseLayer.applyMat
                 { units := 2, kernelCols := Wd, bias := bd, act := csp } sampleH] :=
  ⟨rfl, fun ce csp Wm bm Wd bd => rfl⟩

/-- C6: ZINBDecoder.call on the state its constructors leave behind raises
an AttributeError on core_stack; on a state equipped with the heads its
_final defines, the call returns the ordered triple of rescaled mean,
dispersion and zero inflation output, the third built from the sigmoid
activation slot; and the modelled sigmoid activation maps every real
input into the closed unit interval. -/
theorem zinb_decoder_call_structure_and_sigmoid_range :
    zinbDecoderCall sampleDecoderState sampleH sampleSF
      = Except.error (PyError.attributeError "self" "core_stack")
    ∧ (∀ ce csp sg Wm bm Wd bd Wp bp,
        zinbDecoderCall (zinbFinal ce csp sg Wm bm Wd bd Wp bp sampleDecoderStateCS)
            sampleH sampleSF
          = Except.ok
              [colwiseMult
                (DenseLayer.applyMat
                  { units := 2, kernelCols := Wm, bias := bm, act := ce } sampleH) sampleSF,
               DenseLayer.applyMat
                 { units := 2, kernelCols := Wd, bias := bd, act := csp } sampleH,
               DenseLayer.applyMat
                 { units := 2, kernelCols := Wp, bias := bp, act := sg } sampleH])
    ∧ (∀ x : ℝ, 0 ≤ sigmoidR x ∧ sigmoidR x ≤ 1) := by
  refine ⟨rfl, fun ce csp sg Wm bm Wd bd Wp bp => rfl, fun x => ?_⟩
  have hpos : (0 : ℝ) < 1 + Real.exp (-x) := by positivity
  have hexp : (0 : ℝ) < Real.exp (-x) := Real.exp_pos (-x)
  unfold sigmoidR
  constructor
  · exact div_nonneg (by norm_num) hpos.le
  · rw [div_le_one hpos]
    linarith

/-- C7: PoissonDecoder.call, inherited from CountDecoder, raises an
AttributeError on core_stack on the state its constructors leave behind;
on a state equipped with the head its _final defines, the call returns
the mean head output rescaled by the size factor, and the modelled
clipped exponential activation is strictly positive on every real input. -/
theorem poisson_decoder_mean_head_clipped_exp :
    countDecoderCall sampleDecoderState sampleH sampleSF
      = Except.error (PyError.attributeError "self" "core_stack")
    ∧ (∀ ce Wm bm,
        countDecoderCall (poissonFinal ce Wm bm sampleDecoderStateCS) sampleH sampleSF
          = Except.ok (colwiseMult
              (DenseLayer.applyMat
                { units := 2, kernelCols := Wm, bias := bm, act := ce } sampleH) sampleSF))
    ∧ (∀ x : ℝ, 0 < clippedExpR x) :=
  ⟨rfl, fun ce Wm bm => rfl, fun x => Real.exp_pos _⟩

/-- C8: the mu_sigma output head is a single linear layer whose unit count
is the params_size of the latent dimension, so the width of its output on
any input vector is latent_dim plus latent_dim times latent_dim plus one
over two. -/
theorem mu_sigma_params_size (latent_dim : Nat) (hl : 1 ≤ latent_dim)
    (W : List QVec) (b : QVec)
    (hW : W.length = mvnTriLParamsSize latent_dim)
    (hb : b.length = mvnTriLParamsSize latent_dim) (x : QVec) :
    (mkMuSigma latent_dim W b).units = latent_dim + latent_dim * (latent_dim + 1) / 2
    ∧ ((mkMuSigma latent_dim W b).applyVec x).length
        = latent_dim + latent_dim * (latent_dim + 1) / 2 := by
  constructor
  · rfl
  · simp [mkMuSigma, DenseLayer.applyVec, List.length_zipWith, hW, hb, mvnTriLParamsSize]

/-- C8 witness: the theorem applied at latent dimension two, where the
flattened parameter count is five. -/
theorem mu_sigma_params_size_witness :
    (mkMuSigma 2 [[1], [1], [1], [1], [1]] [0, 0, 0, 0, 0]).units = 2 + 2 * (2 + 1) / 2
    ∧ ((mkMuSigma 2 [[1], [1], [1], [1], [1]] [0, 0, 0, 0, 0]).applyVec [1]).length
        = 2 + 2 * (2 + 1) / 2 :=
  mu_sigma_params_size 2 (by decide) [[1], [1], [1], [1], [1]] [0, 0, 0, 0, 0]
    (by decide) (by decide) [1]

/-- C9: calling is a pure function of the input and the owned sublayers:
Encoder.call gives equal outputs on any two states sharing the dense
stack, final layer and final activation, whatever their configuration
fields, the state threaded form of call returns the state unchanged, and
Decoder.call likewise depends only on the sublayer attributes it reads. -/
theorem call_reads_only_sublayers :
    (∀ e e2 : Encoder, ∀ X : QMat, e.dense_stack = e2.dense_stack →
      e.final_layer = e2.final_layer → e.final_act = e2.final_act →
      Encoder.call e X = Encoder.call e2 X)
    ∧ (∀ e : Encoder, ∀ X : QMat, Encoder.callS e X = (e, Encoder.call e X))
    ∧ (∀ d d2 : CountDecoderState, ∀ X : QMat, d.dense_stack = d2.dense_stack →
      d.final_layer = d2.final_layer → d.final_act = d2.final_act →
      decoderCall d X = decoderCall d2 X) := by
  refine ⟨?_, ?_, ?_⟩
  · intro e e2 X h1 h2 h3
    simp [Encoder.call, h1, h2, h3]
  · intro e X
    rfl
  · intro d d2 X h1 h2 h3
    simp [decoderCall, h1, h2, h3]

/-- C9 witness: two concrete encoder states differing only in the stored
l1 configuration give identical call outputs, and the state threaded call
leaves the state unchanged. -/
theorem call_reads_only_sublayers_witness :
    Encoder.call encConfigA [[1, 2]] = Encoder.call encConfigB [[1, 2]]
    ∧ Encoder.callS encConfigA [[1, 2]] = (encConfigA, Encoder.call encConfigA [[1, 2]]) :=
  ⟨call_reads_only_sublayers.1 encConfigA encConfigB [[1, 2]] rfl rfl rfl,
   call_reads_only_sublayers.2.1 encConfigA [[1, 2]]⟩

/-- C10: the decoder module is unusable: the class statement references
the unbound name Model and raises a NameError, the constructor body
references the unbound name layer_name, and even granting that name it
reads the never assigned initializer attribute, so no decoder operation is
reachable. -/
theorem decoder_family_unconstructable :
    "Model" ∉ decoderModuleNames
    ∧ decoderClassStatement = Except.error (PyError.nameError "Model")
    ∧ decoderInitNames decoderModuleNames = Except.error (PyError.nameError "layer_name")
    ∧ decoderInitNames ("layer_name" :: decoderModuleNames)
        = Except.error (PyError.attributeError "self" "initializer") :=
  ⟨by decide, rfl, rfl, rfl⟩

end Latent
